import Mathlib

/-!
Verification of the suraksha-map offline/online degradation pipeline.

This file shallowly embeds the behavioural core of the suraksha-map web
application: the rule-based text classifier (ai-assistant), the report
normalizer and offline snapshot store (civic-map), the rendering mode
selector (civic-map / category-chart), the aggregation engines
(category-chart / enhanced-analytics) and the geocoding filter of the
report form.  JavaScript numbers are modelled as rationals, JS strings as
Lean strings operated on as character lists, fallible paths as `Option`,
and the global `Math.random` stream as an explicit list of rational draws
in `[0, 1)` threaded through evaluation.
-/

namespace SurakshaMap

/-- JS regex word character class `\w`, i.e. `[A-Za-z0-9_]`. -/
def isWordChar (c : Char) : Bool := c.isAlphanum || c == '_'

/-- JS `s.toLowerCase()` viewed as a character list (ASCII semantics). -/
def lowerChars (s : String) : List Char := s.data.map Char.toLower

/-- JS `String.prototype.trim`: drop whitespace at both ends. -/
def trimChars (l : List Char) : List Char :=
  ((l.dropWhile Char.isWhitespace).reverse.dropWhile Char.isWhitespace).reverse

/-- The classifier's input normalisation `text.toLowerCase().trim()`. -/
def normalizeText (s : String) : List Char := trimChars (lowerChars s)

/-- JS `s.trim()` as a string. -/
def trimString (s : String) : String := String.mk (trimChars s.data)

/-- Does the pattern occur right here, followed by a closing word
boundary (`\b` after the pattern)? -/
def matchHere : List Char → List Char → Bool
  | [], [] => true
  | c :: _, [] => !isWordChar c
  | [], _ :: _ => false
  | c :: cs, p :: ps => c == p && matchHere cs ps

/-- Scan the text for a word-boundary-delimited occurrence of `pat`
(the regex `\bpat\b`); `prevWord` records whether the previous character
was a word character (so the opening boundary holds only when it is not). -/
def searchWord (pat : List Char) : Bool → List Char → Bool
  | prevWord, [] => !prevWord && matchHere [] pat
  | prevWord, c :: cs =>
    (!prevWord && matchHere (c :: cs) pat) || searchWord pat (isWordChar c) cs

/-- `\bkw\b` matching against the (already normalised) text. -/
def containsWordKw (text : List Char) (kw : String) : Bool :=
  searchWord kw.data false text

/-- An alternation `\b(kw1|kw2|...)\b` matches iff some keyword matches. -/
def matchesAnyWord (text : List Char) (kws : List String) : Bool :=
  kws.any (fun kw => containsWordKw text kw)

/-- JS `text.includes(c)` for a single character. -/
def containsCharTok (text : List Char) (c : Char) : Bool :=
  text.any (fun x => x == c)

/-- Is the first list a prefix of the second (plain characterwise)? -/
def isPrefixChars : List Char → List Char → Bool
  | [], _ => true
  | _ :: _, [] => false
  | p :: ps, c :: cs => p == c && isPrefixChars ps cs

/-- Does `sub` occur as a contiguous substring of the text? -/
def containsSubChars (sub : List Char) : List Char → Bool
  | [] => isPrefixChars sub []
  | c :: cs => isPrefixChars sub (c :: cs) || containsSubChars sub cs

/-- JS `text.includes(kw)` (plain substring, no word boundaries). -/
def containsStr (text : List Char) (kw : String) : Bool :=
  containsSubChars kw.data text

/-- `ClassificationResult` from ai-assistant: the `isOfflineFallback`
field is optional in the source, so it is an `Option Bool` here (absent
on results built by the online-simulated path). -/
structure ClassificationResult where
  category : String
  confidence : ℚ
  reasoning : String
  isOfflineFallback : Option Bool
deriving DecidableEq

/-- Safety keyword list of `offlineClassification`. -/
def safetyKeywords : List String :=
  ["danger", "unsafe", "hazard", "risk", "emergency", "urgent", "critical",
   "accident", "injury", "fire", "violence", "threat"]

/-- Infrastructure keyword list of `offlineClassification`. -/
def infrastructureKeywords : List String :=
  ["pothole", "road", "bridge", "water", "pipe", "sewer", "light",
   "electricity", "power", "construction", "building", "repair", "maintenance"]

/-- Environmental keyword list of `offlineClassification`. -/
def environmentalKeywords : List String :=
  ["pollution", "noise", "air", "water", "waste", "garbage", "trash",
   "environment", "green", "tree", "park", "clean"]

/-- Traffic keyword list of `offlineClassification`. -/
def trafficKeywords : List String :=
  ["traffic", "car", "vehicle", "parking", "signal", "jam", "congestion",
   "speed", "driving", "transport"]

/-- Urgency keyword list of `offlineClassification`. -/
def urgencyKeywords : List String :=
  ["urgent", "asap", "immediately", "now", "quick", "fast", "emergency"]

/-- Question keyword list of `offlineClassification`. -/
def questionKeywords : List String :=
  ["what", "when", "where", "why", "how", "question", "help", "support"]

/-- Positive-feedback keyword list of `offlineClassification`. -/
def positiveKeywords : List String :=
  ["thank", "thanks", "great", "excellent", "good", "awesome", "wonderful",
   "appreciate", "love", "perfect"]

/-- Problem/issue keyword list of `offlineClassification`. -/
def issueKeywords : List String :=
  ["problem", "issue", "error", "bug", "broken", "not working", "failed",
   "wrong", "trouble"]

/-- Suggestion keyword list of `offlineClassification`. -/
def suggestionKeywords : List String :=
  ["suggest", "improve", "feature", "enhancement", "better", "could",
   "should", "would", "idea"]

/-- Result of the offline safety rule. -/
def offlineSafetyResult : ClassificationResult :=
  ⟨"Safety Issue", 92/100,
   "Detected safety-related keywords and risk indicators in the text.", some true⟩

/-- Result of the offline infrastructure rule. -/
def offlineInfrastructureResult : ClassificationResult :=
  ⟨"Infrastructure", 88/100,
   "Identified infrastructure and maintenance-related terminology.", some true⟩

/-- Result of the offline environmental rule. -/
def offlineEnvironmentalResult : ClassificationResult :=
  ⟨"Environmental", 85/100,
   "Found environmental and sustainability-related terms.", some true⟩

/-- Result of the offline traffic rule. -/
def offlineTrafficResult : ClassificationResult :=
  ⟨"Traffic", 87/100,
   "Detected transportation and traffic-related content.", some true⟩

/-- Result of the offline urgency rule. -/
def offlineUrgencyResult : ClassificationResult :=
  ⟨"High Priority", 83/100,
   "Identified urgency indicators suggesting high priority classification.", some true⟩

/-- Result of the offline question rule. -/
def offlineQuestionResult : ClassificationResult :=
  ⟨"Support Request", 80/100,
   "Text appears to be a question or support request based on structure and keywords.",
   some true⟩

/-- Result of the offline positive-feedback rule. -/
def offlinePositiveResult : ClassificationResult :=
  ⟨"Positive Feedback", 86/100,
   "Detected positive sentiment and appreciation expressions.", some true⟩

/-- Result of the offline issue rule. -/
def offlineIssueResult : ClassificationResult :=
  ⟨"Issue Report", 84/100,
   "Identified problem reporting language and error indicators.", some true⟩

/-- Result of the offline suggestion rule. -/
def offlineSuggestionResult : ClassificationResult :=
  ⟨"Feature Request", 78/100,
   "Found suggestion and improvement-oriented language patterns.", some true⟩

/-- Default result of `offlineClassification` when no rule matches. -/
def offlineDefaultResult : ClassificationResult :=
  ⟨"Other", 60/100,
   "Unable to determine specific category. Content may require manual review.", some true⟩

/-- `offlineClassification` from ai-assistant, transcribed branch for
branch from its early-return chain of regex tests. -/
def offlineClassification (text : String) : ClassificationResult :=
  let n := normalizeText text
  if matchesAnyWord n safetyKeywords then offlineSafetyResult
  else if matchesAnyWord n infrastructureKeywords then offlineInfrastructureResult
  else if matchesAnyWord n environmentalKeywords then offlineEnvironmentalResult
  else if matchesAnyWord n trafficKeywords then offlineTrafficResult
  else if matchesAnyWord n urgencyKeywords || containsCharTok n '!' then offlineUrgencyResult
  else if containsCharTok n '?' || matchesAnyWord n questionKeywords then offlineQuestionResult
  else if matchesAnyWord n positiveKeywords then offlinePositiveResult
  else if matchesAnyWord n issueKeywords then offlineIssueResult
  else if matchesAnyWord n suggestionKeywords then offlineSuggestionResult
  else offlineDefaultResult

/-- Default result of the online-simulated classification when no
substring test fires: the initialised values `category = "Other"`,
`confidence = 0.8`, `reasoning = ""` are returned unchanged, and no
`isOfflineFallback` field is set. -/
def onlineDefaultResult : ClassificationResult := ⟨"Other", 8/10, "", none⟩

/-- The mock online classification inside `handleClassify`, transcribed
branch for branch; it lowercases (but does not trim) the input and uses
plain `includes` substring tests. -/
def onlineMockClassification (inputText : String) : ClassificationResult :=
  let text := lowerChars inputText
  if containsStr text "urgent" || containsStr text "emergency" || containsStr text "critical" then
    ⟨"High Priority", 95/100,
     "High priority indicators detected with strong confidence based on urgency keywords.", none⟩
  else if containsStr text "safety" || containsStr text "danger" || containsStr text "risk" then
    ⟨"Safety Issue", 93/100,
     "Safety-related content identified through risk assessment keywords.", none⟩
  else if containsStr text "road" || containsStr text "traffic" || containsStr text "transport" then
    ⟨"Traffic", 90/100,
     "Transportation and traffic-related content detected.", none⟩
  else if containsStr text "environment" || containsStr text "pollution" || containsStr text "waste" then
    ⟨"Environmental", 89/100,
     "Environmental concerns identified in the text content.", none⟩
  else if containsStr text "infrastructure" || containsStr text "repair" || containsStr text "maintenance" then
    ⟨"Infrastructure", 87/100,
     "Infrastructure and maintenance-related terminology found.", none⟩
  else if containsStr text "question" || containsStr text "help" || containsStr text "?" then
    ⟨"Support Request", 85/100,
     "Support request identified based on question patterns and help-seeking language.", none⟩
  else if containsStr text "thank" || containsStr text "great" || containsStr text "excellent" then
    ⟨"Positive Feedback", 88/100,
     "Positive sentiment analysis indicates appreciation or satisfaction.", none⟩
  else if containsStr text "issue" || containsStr text "problem" || containsStr text "error" then
    ⟨"Issue Report", 86/100,
     "Problem reporting detected through issue identification keywords.", none⟩
  else if containsStr text "suggestion" || containsStr text "improve" || containsStr text "feature" then
    ⟨"Feature Request", 82/100,
     "Enhancement suggestions identified through improvement-oriented language.", none⟩
  else onlineDefaultResult

/-- First-match evaluation of an ordered rule table: the result of the
earliest rule whose predicate holds, else the default. -/
def firstMatch {α R : Type} : List ((α → Bool) × R) → R → α → R
  | [], d, _ => d
  | (p, r) :: rest, d, a => if p a then r else firstMatch rest d a

/-- The offline rule table in source order (predicates over the
normalised text). -/
def offlineRules : List ((List Char → Bool) × ClassificationResult) :=
  [(fun n => matchesAnyWord n safetyKeywords, offlineSafetyResult),
   (fun n => matchesAnyWord n infrastructureKeywords, offlineInfrastructureResult),
   (fun n => matchesAnyWord n environmentalKeywords, offlineEnvironmentalResult),
   (fun n => matchesAnyWord n trafficKeywords, offlineTrafficResult),
   (fun n => matchesAnyWord n urgencyKeywords || containsCharTok n '!', offlineUrgencyResult),
   (fun n => containsCharTok n '?' || matchesAnyWord n questionKeywords, offlineQuestionResult),
   (fun n => matchesAnyWord n positiveKeywords, offlinePositiveResult),
   (fun n => matchesAnyWord n issueKeywords, offlineIssueResult),
   (fun n => matchesAnyWord n suggestionKeywords, offlineSuggestionResult)]

/-- The online-simulated rule table in source order (predicates over the
lowercased, untrimmed text). -/
def onlineRules : List ((List Char → Bool) × ClassificationResult) :=
  [(fun t => containsStr t "urgent" || containsStr t "emergency" || containsStr t "critical",
    ⟨"High Priority", 95/100,
     "High priority indicators detected with strong confidence based on urgency keywords.", none⟩),
   (fun t => containsStr t "safety" || containsStr t "danger" || containsStr t "risk",
    ⟨"Safety Issue", 93/100,
     "Safety-related content identified through risk assessment keywords.", none⟩),
   (fun t => containsStr t "road" || containsStr t "traffic" || containsStr t "transport",
    ⟨"Traffic", 90/100,
     "Transportation and traffic-related content detected.", none⟩),
   (fun t => containsStr t "environment" || containsStr t "pollution" || containsStr t "waste",
    ⟨"Environmental", 89/100,
     "Environmental concerns identified in the text content.", none⟩),
   (fun t => containsStr t "infrastructure" || containsStr t "repair" || containsStr t "maintenance",
    ⟨"Infrastructure", 87/100,
     "Infrastructure and maintenance-related terminology found.", none⟩),
   (fun t => containsStr t "question" || containsStr t "help" || containsStr t "?",
    ⟨"Support Request", 85/100,
     "Support request identified based on question patterns and help-seeking language.", none⟩),
   (fun t => containsStr t "thank" || containsStr t "great" || containsStr t "excellent",
    ⟨"Positive Feedback", 88/100,
     "Positive sentiment analysis indicates appreciation or satisfaction.", none⟩),
   (fun t => containsStr t "issue" || containsStr t "problem" || containsStr t "error",
    ⟨"Issue Report", 86/100,
     "Problem reporting detected through issue identification keywords.", none⟩),
   (fun t => containsStr t "suggestion" || containsStr t "improve" || containsStr t "feature",
    ⟨"Feature Request", 82/100,
     "Enhancement suggestions identified through improvement-oriented language.", none⟩)]

/-- Final outcome of one `handleClassify` invocation: the result shown to
the user and the error message left standing after all timers have run. -/
structure ClassifyOutcome where
  result : Option ClassificationResult
  finalError : Option String
deriving DecidableEq

/-- `handleClassify` from ai-assistant, modelled as a pure function of the
connectivity flag, the manual fallback toggle, the synthetic-failure draw
(`Math.random() < 0.3` on the online path) and the input text.  The catch
branch shows a transient message, then its timer clears the error and
stores the offline classification, so its final outcome is the offline
result with no standing error. -/
def handleClassify (isOnline useOfflineFallback simulatedFailure : Bool)
    (inputText : String) : ClassifyOutcome :=
  if trimChars inputText.data = [] then
    ⟨none, some "Please enter some text to classify"⟩
  else if !isOnline || useOfflineFallback then
    ⟨some (offlineClassification inputText), none⟩
  else if simulatedFailure then
    ⟨some (offlineClassification inputText), none⟩
  else
    ⟨some (onlineMockClassification inputText), none⟩

/-- `analytics.totalReports` in category-chart: the sum of all category
counts (`Object.values(categoryData).reduce((sum, c) => sum + c, 0)`).
`categoryData` is a JS object, modelled as an insertion-ordered
association list. -/
def totalOf (cd : List (String × Nat)) : Nat := (cd.map (fun p => p.2)).sum

/-- `analytics.mostCommonCategory` in category-chart: left fold keeping
the strictly larger count, starting from `{category: 'None', count: 0}`. -/
def mostCommonOf (cd : List (String × Nat)) : String :=
  (cd.foldl (fun mx p => if p.2 > mx.2 then p else mx) ("None", 0)).1

/-- One synthetic trend entry in category-chart:
`Math.floor(Math.random() * total / 3) + Math.floor(total / 7)` with the
random draw `r` made explicit. -/
def catChartTrendCount (total : Nat) (r : ℚ) : Nat :=
  (Int.floor (r * total / 3)).toNat + total / 7

/-- The full `AnalyticsData` state computed by category-chart (the trend
entries keep only their counts; the date labels are presentational). -/
structure CatChartAnalytics where
  totalReports : Nat
  mostCommonCategory : String
  trendData : List Nat
deriving DecidableEq

/-- The category-chart analytics computation applied to a given list of
random draws (one per synthetic trend entry). -/
def catChartAnalytics (cd : List (String × Nat)) (draws : List ℚ) : CatChartAnalytics :=
  ⟨totalOf cd, mostCommonOf cd, draws.map (catChartTrendCount (totalOf cd))⟩

/-- One evaluation of the category-chart analytics: it samples
`Math.random()` seven times, so it consumes seven draws from the global
random stream and returns the rest of the stream. -/
def evalCatChart (cd : List (String × Nat)) (rng : List ℚ) :
    CatChartAnalytics × List ℚ :=
  (catChartAnalytics cd (rng.take 7), rng.drop 7)

/-- `hasData` in category-chart: some category key exists and some count
is positive. -/
def hasData (cd : List (String × Nat)) : Bool :=
  decide (0 < cd.length) && cd.any (fun p => decide (0 < p.2))

/-- The data rows handed to the Google pie chart: all positive-count
categories, or the `['No Data', 1]` placeholder row when there is no
data. -/
def googlePieRows (cd : List (String × Nat)) : List (String × Nat) :=
  if hasData cd then cd.filter (fun p => decide (0 < p.2)) else [("No Data", 1)]

/-- The data rows handed to the Google bar chart: every category entry,
or the placeholder row when there is no data. -/
def googleBarRows (cd : List (String × Nat)) : List (String × Nat) :=
  if hasData cd then cd else [("No Data", 1)]

/-- The rows rendered by `renderOfflineChart`: rows with `count === 0`
are skipped (`return null`), and with no data only a placeholder message
is rendered (no rows). -/
def offlineChartRows (cd : List (String × Nat)) : List (String × Nat) :=
  if hasData cd then cd.filter (fun p => !(p.2 == 0)) else []

/-- A stored report as seen by the enhanced analytics view; `createdAt`
is an epoch-millisecond timestamp and `priority`/`status`/`category` are
the display strings used as grouping keys. -/
structure AReport where
  category : String
  priority : String
  status : String
  city : String
  state : String
  createdAt : ℚ
deriving DecidableEq

/-- The filter state of the enhanced analytics view: `dateRange` is the
parsed number of days, `category` is `"all"` or a category name, and the
status/priority filters are optional. -/
structure AnalyticsFilters where
  dateRange : ℚ
  category : String
  status : Option String
  priority : Option String
deriving DecidableEq

/-- `filteredReports` in enhanced-analytics: date-range window, then the
category, status and priority filters, each skipped on `'all'` (status
and priority also when absent). -/
def filteredReportsOf (now : ℚ) (reports : List AReport) (f : AnalyticsFilters) :
    List AReport :=
  let startDate := now - f.dateRange * 86400000
  let byDate := reports.filter (fun r => decide (startDate ≤ r.createdAt))
  let byCat := if f.category = "all" then byDate
    else byDate.filter (fun r => r.category == f.category)
  let bySt := match f.status with
    | some s => if s = "all" then byCat else byCat.filter (fun r => r.status == s)
    | none => byCat
  match f.priority with
  | some p => if p = "all" then bySt else bySt.filter (fun r => r.priority == p)
  | none => bySt

/-- `acc[key] = (acc[key] || 0) + 1` on a JS object: bump the key's count,
appending the key in insertion order when new. -/
def bumpKey : List (String × Nat) → String → List (String × Nat)
  | [], k => [(k, 1)]
  | (k', c) :: rest, k =>
    if k' = k then (k', c + 1) :: rest else (k', c) :: bumpKey rest k

/-- The `reduce` grouping used for the category / priority / status /
location breakdowns. -/
def countByKey (keys : List String) : List (String × Nat) := keys.foldl bumpKey []

/-- Calendar-day bucket of an epoch-millisecond timestamp (the
`toDateString()` comparison, modelled at day granularity). -/
def dayIndex (t : ℚ) : ℤ := Int.floor (t / 86400000)

/-- The aggregate produced by `analyticsData` in enhanced-analytics; the
trend series keeps the 7 day-bucket counts (labels are presentational). -/
structure EnhancedAggregate where
  categoryCounts : List (String × Nat)
  priorityCounts : List (String × Nat)
  statusCounts : List (String × Nat)
  locationCounts : List (String × Nat)
  trends : List Nat
deriving DecidableEq

/-- `analyticsData` from enhanced-analytics: breakdowns of the filtered
reports keyed by category, priority, status and `city, state`, plus the
trailing seven calendar-day counts (index 0 is six days ago, index 6 is
today, matching the `for (let i = 6; i >= 0; i--)` loop). -/
def analyticsDataOf (now : ℚ) (reports : List AReport) (f : AnalyticsFilters) :
    EnhancedAggregate :=
  let fr := filteredReportsOf now reports f
  { categoryCounts := countByKey (fr.map (fun r => r.category))
    priorityCounts := countByKey (fr.map (fun r => r.priority))
    statusCounts := countByKey (fr.map (fun r => r.status))
    locationCounts := countByKey (fr.map (fun r => r.city ++ ", " ++ r.state))
    trends := (List.range 7).map (fun idx =>
      (fr.filter (fun r => dayIndex r.createdAt == dayIndex now - (6 - (idx : ℤ)))).length) }

/-- One evaluation of the enhanced-analytics aggregation: it never calls
`Math.random`, so it consumes nothing from the global random stream. -/
def evalEnhanced (now : ℚ) (reports : List AReport) (f : AnalyticsFilters)
    (rng : List ℚ) : EnhancedAggregate × List ℚ :=
  (analyticsDataOf now reports f, rng)

/-- Resolved geocoded coordinates attached to a submitted report. -/
structure Coord where
  lat : ℚ
  lon : ℚ
deriving DecidableEq

/-- A `NewReport` form submission as received by the map view. -/
structure NewReport where
  location : String
  coordinates : Option Coord
  description : String
  category : String
deriving DecidableEq

/-- The `type` enum of an `IncidentMarker`. -/
inductive MarkerType
  | accident | infrastructure | safety | environment | traffic | other
deriving DecidableEq

/-- The `priority` enum of an `IncidentMarker`. -/
inductive MarkerPriority
  | low | medium | high
deriving DecidableEq

/-- The `status` enum of an `IncidentMarker` (`open'` stands for the
source's `'open'`, which is a reserved word in Lean). -/
inductive MarkerStatus
  | open' | inProgress | resolved
deriving DecidableEq

/-- The map-renderable record derived from a report. -/
structure IncidentMarker where
  id : String
  lat : ℚ
  lng : ℚ
  title : String
  description : String
  type : MarkerType
  priority : MarkerPriority
  date : String
  status : MarkerStatus
deriving DecidableEq

/-- `categoryTypeMap[report.category] || 'other'` in civic-map. -/
def categoryTypeMap (category : String) : MarkerType :=
  if category = "Safety Issue" then .safety
  else if category = "Infrastructure" then .infrastructure
  else if category = "Environmental" then .environment
  else if category = "Traffic" then .traffic
  else if category = "Other" then .other
  else .other

/-- `convertReportToMarker` from civic-map: a report without resolved
coordinates yields `null` (here `none`) and is meant to be filtered from
the batch; otherwise a single marker with default medium priority, open
status, and an id derived from `Date.now()` and the batch index. -/
def convertReportToMarker (nowMs : Nat) (today : String) (report : NewReport)
    (index : Nat) : Option IncidentMarker :=
  match report.coordinates with
  | none => none
  | some c => some
      { id := "report_" ++ toString nowMs ++ "_" ++ toString index
        lat := c.lat
        lng := c.lon
        title := "New Report: " ++ report.category
        description := report.description
        type := categoryTypeMap report.category
        priority := .medium
        date := today
        status := .open' }

/-- The `.map((report, index) => convertReportToMarker(report, index))`
step, carrying the running batch index. -/
def convertAll (nowMs : Nat) (today : String) : Nat → List NewReport →
    List (Option IncidentMarker)
  | _, [] => []
  | i, r :: rs => convertReportToMarker nowMs today r i :: convertAll nowMs today (i + 1) rs

/-- The whole batch conversion in civic-map: map every report to a marker
and filter out the `null` entries of coordinate-less reports. -/
def convertBatch (nowMs : Nat) (today : String) (reports : List NewReport) :
    List IncidentMarker :=
  (convertAll nowMs today 0 reports).filterMap id

/-- The `OfflineMapData` snapshot persisted in the local cache slot. -/
structure OfflineMapData where
  center : ℚ × ℚ
  zoom : ℚ
  markers : List IncidentMarker
  lastUpdated : String
deriving DecidableEq

/-- JSON values, the image of `JSON.stringify` on the snapshot data
(numbers round-trip exactly through JSON for these values, so the cache
slot is modelled at the JSON-value level rather than as raw text). -/
inductive JVal
  | num (q : ℚ)
  | str (s : String)
  | arr (elems : List JVal)
  | obj (fields : List (String × JVal))

/-- Serialisation of the marker `type` enum. -/
def markerTypeToString : MarkerType → String
  | .accident => "accident"
  | .infrastructure => "infrastructure"
  | .safety => "safety"
  | .environment => "environment"
  | .traffic => "traffic"
  | .other => "other"

/-- Parse of the marker `type` enum. -/
def markerTypeFromString (s : String) : Option MarkerType :=
  if s = "accident" then some .accident
  else if s = "infrastructure" then some .infrastructure
  else if s = "safety" then some .safety
  else if s = "environment" then some .environment
  else if s = "traffic" then some .traffic
  else if s = "other" then some .other
  else none

/-- Serialisation of the marker `priority` enum. -/
def markerPriorityToString : MarkerPriority → String
  | .low => "low"
  | .medium => "medium"
  | .high => "high"

/-- Parse of the marker `priority` enum. -/
def markerPriorityFromString (s : String) : Option MarkerPriority :=
  if s = "low" then some .low
  else if s = "medium" then some .medium
  else if s = "high" then some .high
  else none

/-- Serialisation of the marker `status` enum. -/
def markerStatusToString : MarkerStatus → String
  | .open' => "open"
  | .inProgress => "in-progress"
  | .resolved => "resolved"

/-- Parse of the marker `status` enum. -/
def markerStatusFromString (s : String) : Option MarkerStatus :=
  if s = "open" then some .open'
  else if s = "in-progress" then some .inProgress
  else if s = "resolved" then some .resolved
  else none

/-- `JSON.stringify` of one marker. -/
def encodeMarker (m : IncidentMarker) : JVal :=
  .obj [("id", .str m.id), ("lat", .num m.lat), ("lng", .num m.lng),
        ("title", .str m.title), ("description", .str m.description),
        ("type", .str (markerTypeToString m.type)),
        ("priority", .str (markerPriorityToString m.priority)),
        ("date", .str m.date),
        ("status", .str (markerStatusToString m.status))]

/-- `JSON.parse` of one marker object. -/
def decodeMarker : JVal → Option IncidentMarker
  | .obj [("id", .str id), ("lat", .num lat), ("lng", .num lng),
          ("title", .str title), ("description", .str description),
          ("type", .str ty), ("priority", .str pr),
          ("date", .str date), ("status", .str st)] =>
    match markerTypeFromString ty, markerPriorityFromString pr,
        markerStatusFromString st with
    | some ty', some pr', some st' =>
      some ⟨id, lat, lng, title, description, ty', pr', date, st'⟩
    | _, _, _ => none
  | _ => none

/-- Parse a JSON array of markers; any malformed entry fails the parse. -/
def decodeMarkerList : List JVal → Option (List IncidentMarker)
  | [] => some []
  | v :: vs =>
    match decodeMarker v, decodeMarkerList vs with
    | some m, some ms => some (m :: ms)
    | _, _ => none

/-- `JSON.stringify` of the whole snapshot. -/
def encodeOffline (d : OfflineMapData) : JVal :=
  .obj [("center", .arr [.num d.center.1, .num d.center.2]),
        ("zoom", .num d.zoom),
        ("markers", .arr (d.markers.map encodeMarker)),
        ("lastUpdated", .str d.lastUpdated)]

/-- `JSON.parse` of the whole snapshot. -/
def decodeOffline : JVal → Option OfflineMapData
  | .obj [("center", .arr [.num la, .num ln]), ("zoom", .num z),
          ("markers", .arr ms), ("lastUpdated", .str lu)] =>
    (decodeMarkerList ms).map (fun mks => ⟨(la, ln), z, mks, lu⟩)
  | _ => none

/-- `saveOfflineData` from civic-map: overwrite the single cache slot
(`localStorage.setItem(OFFLINE_MAP_KEY, JSON.stringify(data))`) wholesale. -/
def saveOfflineData (_store : Option JVal) (d : OfflineMapData) : Option JVal :=
  some (encodeOffline d)

/-- `loadOfflineData` from civic-map: read the cache slot and parse it;
an empty slot yields nothing. -/
def loadOfflineData (store : Option JVal) : Option OfflineMapData :=
  store.bind decodeOffline

/-- The states of the per-view rendering mode selector. -/
inductive MapViewState
  | loading | live | errorTransient | fallback
deriving DecidableEq

/-- One invocation of `initializeMap` in civic-map: offline or manual
offline mode short-circuits to the fallback renderer before any dynamic
import; otherwise the Leaflet load either succeeds (live map) or throws
(transient error message). -/
def initializeMapStep (isOnline useOfflineMode loadOk : Bool) : MapViewState :=
  if !isOnline || useOfflineMode then .fallback
  else if loadOk then .live
  else .errorTransient

/-- The automatic behaviour of the civic-map selector when online, fed
with the sequence of outcomes successive library loads would have.  A
failed first load shows the transient error, then its 2-second timer sets
`useOfflineMode`, which re-runs `initializeMap`; that re-run returns
before the dynamic import, so it consumes no further load outcome.  The
second component counts the library load attempts actually made. -/
def runMapSelector (outcomes : List Bool) : MapViewState × Nat :=
  match outcomes with
  | [] => (.loading, 0)
  | ok :: _ =>
    match initializeMapStep true false ok with
    | .errorTransient => (initializeMapStep true true ok, 1)
    | s => (s, 1)

/-- `loadGoogleCharts` in category-chart: offline means no attempt at
all; otherwise one script load which on `onerror` switches the view to
offline mode directly.  Returns `(useOfflineMode, script load attempts)`. -/
def loadGoogleChartsStep (online scriptLoads : Bool) : Bool × Nat :=
  if !online then (true, 0)
  else if scriptLoads then (false, 1)
  else (true, 1)

/-- A geocoding candidate returned by the search endpoint (`lat`/`lon`
already parsed from their string forms). -/
structure LocationResult where
  display_name : String
  lat : ℚ
  lon : ℚ
deriving DecidableEq

/-- A resolved location produced by `findBestLocationInKerala`. -/
structure GeoLocation where
  lat : ℚ
  lon : ℚ
  name : String
deriving DecidableEq

/-- The textual allow-list used to filter geocoding candidates. -/
def keralaNames : List String :=
  ["kerala", "kochi", "thiruvananthapuram", "kozhikode", "kollam", "thrissur",
   "palakkad", "malappuram", "kannur", "kasaragod", "pathanamthitta",
   "alappuzha", "kottayam", "idukki", "ernakulam", "wayanad"]

/-- The candidate filter in `findBestLocationInKerala`: the lowercased
display name must mention Kerala or one of its districts/cities. -/
def isKeralaResult (r : LocationResult) : Bool :=
  keralaNames.any (fun nm => containsSubChars nm.data (lowerChars r.display_name))

/-- The rough Kerala bounding-box check applied to the best candidate:
`lat >= 8.2 && lat <= 12.5 && lon >= 74.8 && lon <= 77.5`. -/
def inKeralaBounds (lat lon : ℚ) : Bool :=
  decide (mkRat 82 10 ≤ lat) && decide (lat ≤ mkRat 125 10) &&
    decide (mkRat 748 10 ≤ lon) && decide (lon ≤ mkRat 775 10)

/-- The three biased search queries tried in order. -/
def searchQueries (query : String) : List String :=
  [query ++ ", Kerala, India", query ++ " Kerala", query ++ ", India"]

/-- Processing of one search response: keep the allow-listed candidates,
take the first, and accept it only when it passes the bounding-box check. -/
def findBestForQuery (data : List LocationResult) : Option GeoLocation :=
  match data.filter isKeralaResult with
  | [] => none
  | best :: _ =>
    if inKeralaBounds best.lat best.lon then
      some ⟨best.lat, best.lon, best.display_name⟩
    else none

/-- The loop over the search queries: a failed request (`!response.ok`,
modelled as `none`) or an unusable response falls through to the next
query. -/
def findLoop (responses : String → Option (List LocationResult)) :
    List String → Option GeoLocation
  | [] => none
  | q :: qs =>
    match responses q with
    | none => findLoop responses qs
    | some data =>
      match findBestForQuery data with
      | some g => some g
      | none => findLoop responses qs

/-- `findBestLocationInKerala` from report-form, with the geocoding
endpoint abstracted as the `responses` function. -/
def findBestLocationInKerala (responses : String → Option (List LocationResult))
    (query : String) : Option GeoLocation :=
  if query.length < 2 then none else findLoop responses (searchQueries query)

/-- The data handed to `onSubmit` by the report form. -/
structure FormData where
  location : String
  coordinates : Coord
  description : String
  category : String
deriving DecidableEq

/-- `validateForm` from report-form: location and description nonempty
after trimming, description at least 10 characters after trimming, and a
category chosen. -/
def validateForm (location description category : String) : Bool :=
  !(trimChars location.data == []) && !(trimChars description.data == []) &&
    decide (10 ≤ (trimChars description.data).length) && !(category == "")

/-- `handleSubmit` from report-form as a pure function: `geocodedQuery`
is the location text already geocoded into the `geocodedLocation` state
(that state is only ever set from a `findBestLocationInKerala` result).
The returned value is the payload passed to `onSubmit`, or `none` when
validation or geocoding stops the submission. -/
def handleSubmit (responses : String → Option (List LocationResult))
    (geocodedQuery : Option String) (location description category : String) :
    Option FormData :=
  if !(validateForm location description category) then none
  else
    match geocodedQuery.bind (findBestLocationInKerala responses) with
    | some g => some ⟨g.name, ⟨g.lat, g.lon⟩, trimString description, category⟩
    | none =>
      match findBestLocationInKerala responses (trimString location) with
      | some g => some ⟨g.name, ⟨g.lat, g.lon⟩, trimString description, category⟩
      | none => none

/-! ### Generic first-match lemmas -/

/-- When every predicate before index `i` fails and the predicate at `i`
holds, first-match evaluation returns the rule at `i`. -/
theorem firstMatch_eq_get {α R : Type} (d : R) (a : α) :
    ∀ (rules : List ((α → Bool) × R)) (i : Nat) (hi : i < rules.length),
      (rules.take i).all (fun rule => !(rule.1 a)) = true →
      (rules.get ⟨i, hi⟩).1 a = true →
      firstMatch rules d a = (rules.get ⟨i, hi⟩).2 := by
  intro rules
  induction rules with
  | nil => intro i hi _ _; exact absurd hi (Nat.not_lt_zero i)
  | cons hd tl ih =>
    intro i hi hbefore hmatch
    cases hd with
    | mk p r =>
      cases i with
      | zero =>
        simp only [List.get] at hmatch ⊢
        simp [firstMatch, hmatch]
      | succ n =>
        simp only [List.take_succ_cons, List.all_cons, Bool.and_eq_true,
          Bool.not_eq_true'] at hbefore
        simp only [List.get] at hmatch ⊢
        simp only [firstMatch, hbefore.1, if_false, Bool.false_eq_true]
        exact ih n (Nat.lt_of_succ_lt_succ hi) hbefore.2 hmatch

/-- When no predicate holds, first-match evaluation returns the default. -/
theorem firstMatch_eq_default {α R : Type} (d : R) (a : α) :
    ∀ (rules : List ((α → Bool) × R)),
      rules.all (fun rule => !(rule.1 a)) = true → firstMatch rules d a = d := by
  intro rules
  induction rules with
  | nil => intro _; rfl
  | cons hd tl ih =>
    intro hall
    cases hd with
    | mk p r =>
      simp only [List.all_cons, Bool.and_eq_true, Bool.not_eq_true'] at hall
      simp only [firstMatch, hall.1, if_false, Bool.false_eq_true]
      exact ih hall.2

/-- The offline early-return chain is first-match evaluation of the
offline rule table. -/
theorem offlineClassification_eq_table (text : String) :
    offlineClassification text =
      firstMatch offlineRules offlineDefaultResult (normalizeText text) := rfl

/-- The online-simulated chain is first-match evaluation of the online
rule table. -/
theorem onlineMockClassification_eq_table (text : String) :
    onlineMockClassification text =
      firstMatch onlineRules onlineDefaultResult (lowerChars text) := rfl

/-- C3 (confirmed): when the normalised input matches several offline
rules, the classification is the earliest matching rule's category; the
hypotheses say rule `i` matches, every earlier rule fails, and at least
one later rule also matches. -/
theorem offlineClassification_first_match (text : String) (i : Nat)
    (hi : i < offlineRules.length)
    (hbefore : (offlineRules.take i).all (fun rule => !(rule.1 (normalizeText text))) = true)
    (hmatch : (offlineRules.get ⟨i, hi⟩).1 (normalizeText text) = true)
    (_hmulti : ∃ j : Fin offlineRules.length, i < j.val ∧
      (offlineRules.get j).1 (normalizeText text) = true) :
    (offlineClassification text).category = ((offlineRules.get ⟨i, hi⟩).2).category := by
  rw [offlineClassification_eq_table,
    firstMatch_eq_get offlineDefaultResult (normalizeText text) offlineRules i hi hbefore hmatch]

/-- C3 witness: "danger pothole" matches both the safety rule (rule 0,
keyword "danger") and the infrastructure rule (rule 1, keyword
"pothole") and classifies as Safety Issue, not Infrastructure. -/
theorem offlineClassification_first_match_witness :
    (offlineClassification "danger pothole").category = "Safety Issue" := by
  have h := offlineClassification_first_match "danger pothole" 0 (by decide)
    (by decide) (by decide) ⟨⟨1, by decide⟩, by decide, by decide⟩
  exact h

/-- C4 counterexample: "urgent danger" matches the safety predicate of
both tables, so under the claimed common safety-first order both tables
would answer Safety Issue; the online-simulated table instead answers
High Priority, because its urgency rule is listed first. -/
theorem classifier_table_order_counterexample :
    containsStr (lowerChars "urgent danger") "danger" = true ∧
    (offlineClassification "urgent danger").category = "Safety Issue" ∧
    (onlineMockClassification "urgent danger").category = "High Priority" ∧
    ("High Priority" : String) ≠ "Safety Issue" :=
  ⟨by decide, by decide, by decide, by decide⟩

/-- C4 (corrected): each table is first-match over its own ordered rule
list, but the two orders differ: the offline table runs safety >
infrastructure > environmental > traffic > urgency > question >
positive-feedback > issue > suggestion, while the online-simulated table
runs urgency > safety > traffic > environmental > infrastructure >
question > positive-feedback > issue > suggestion. -/
theorem classifier_tables_first_match :
    (∀ text, offlineClassification text =
      firstMatch offlineRules offlineDefaultResult (normalizeText text)) ∧
    (∀ text, onlineMockClassification text =
      firstMatch onlineRules onlineDefaultResult (lowerChars text)) ∧
    offlineRules.map (fun rule => rule.2.category) =
      ["Safety Issue", "Infrastructure", "Environmental", "Traffic",
       "High Priority", "Support Request", "Positive Feedback", "Issue Report",
       "Feature Request"] ∧
    onlineRules.map (fun rule => rule.2.category) =
      ["High Priority", "Safety Issue", "Traffic", "Environmental",
       "Infrastructure", "Support Request", "Positive Feedback", "Issue Report",
       "Feature Request"] :=
  ⟨fun _ => rfl, fun _ => rfl, rfl, rfl⟩

/-- C5 counterexample: on the online-simulated path the no-match input
"xyz123 lorem ipsum" yields the online default, whose confidence is 0.8
(not 0.60) and which carries no fallback flag. -/
theorem classifier_default_counterexample :
    onlineMockClassification "xyz123 lorem ipsum" = onlineDefaultResult ∧
    (onlineMockClassification "xyz123 lorem ipsum").confidence = 8/10 ∧
    (onlineMockClassification "xyz123 lorem ipsum").isOfflineFallback = none ∧
    ((8 : ℚ)/10 ≠ 60/100) :=
  ⟨rfl, rfl, rfl, by norm_num⟩

/-- C5 (corrected): an input matching no rule yields the offline default
{Other, 0.60, fallback true} on the offline path, and the online default
{Other, 0.8, no fallback flag} on the online-simulated path. -/
theorem classifier_no_match_defaults (text : String)
    (hoff : offlineRules.all (fun rule => !(rule.1 (normalizeText text))) = true)
    (hon : onlineRules.all (fun rule => !(rule.1 (lowerChars text))) = true) :
    offlineClassification text = offlineDefaultResult ∧
    onlineMockClassification text = onlineDefaultResult := by
  constructor
  · rw [offlineClassification_eq_table]
    exact firstMatch_eq_default offlineDefaultResult (normalizeText text) offlineRules hoff
  · rw [onlineMockClassification_eq_table]
    exact firstMatch_eq_default onlineDefaultResult (lowerChars text) onlineRules hon

/-- C5 witness at "xyz123 lorem ipsum". -/
theorem classifier_no_match_defaults_witness :
    offlineClassification "xyz123 lorem ipsum" = offlineDefaultResult ∧
    onlineMockClassification "xyz123 lorem ipsum" = onlineDefaultResult :=
  classifier_no_match_defaults "xyz123 lorem ipsum" (by decide) (by decide)

/-- C6 (confirmed): whenever the synthetic failure draw fires, a
classify invocation on nonempty input still ends with the offline
classification as its result and no standing error, in every
connectivity/override configuration — the failure is always recovered by
the offline table. -/
theorem handleClassify_failure_recovers (isOnline useOff : Bool) (input : String)
    (h : ¬(trimChars input.data = [])) :
    handleClassify isOnline useOff true input =
      ⟨some (offlineClassification input), none⟩ := by
  cases isOnline <;> cases useOff <;> simp [handleClassify, h]

/-- C6 witness on the online path with the failure firing. -/
theorem handleClassify_failure_recovers_witness :
    handleClassify true false true "broken street light" =
      ⟨some (offlineClassification "broken street light"), none⟩ :=
  handleClassify_failure_recovers true false "broken street light" (by decide)

/-! ### Chart rendering symmetry and batch conversion -/

/-- Keeping the positive-count rows is the same as dropping the
zero-count rows. -/
theorem filter_pos_eq_filter_ne (cd : List (String × Nat)) :
    cd.filter (fun p => decide (0 < p.2)) = cd.filter (fun p => !(p.2 == 0)) := by
  induction cd with
  | nil => rfl
  | cons hd tl ih =>
    cases h2 : hd.2 with
    | zero => simp [List.filter_cons, h2, ih]
    | succ n => simp [List.filter_cons, h2, ih]

/-- Dropping zero-count rows does not change the displayed total. -/
theorem totalOf_filter_ne (cd : List (String × Nat)) :
    totalOf (cd.filter (fun p => !(p.2 == 0))) = totalOf cd := by
  induction cd with
  | nil => rfl
  | cons hd tl ih =>
    cases h2 : hd.2 with
    | zero => simp [List.filter_cons, h2, totalOf, List.sum_cons] at ih ⊢; omega
    | succ n => simp [List.filter_cons, h2, totalOf, List.sum_cons] at ih ⊢; omega

/-- C1 (confirmed): on any category data with at least one nonzero
count, the live Google pie chart and the offline fallback chart render
exactly the same category/count rows, those rows sum to the engine's
total (which the summary shows identically in both modes), and the live
bar chart differs from the fallback rows only by zero-count rows. -/
theorem rendering_symmetry (cd : List (String × Nat)) (h : hasData cd = true) :
    googlePieRows cd = offlineChartRows cd ∧
    totalOf (offlineChartRows cd) = totalOf cd ∧
    (googleBarRows cd).filter (fun p => !(p.2 == 0)) = offlineChartRows cd := by
  refine ⟨?_, ?_, ?_⟩
  · rw [googlePieRows, offlineChartRows, if_pos h, if_pos h]
    exact filter_pos_eq_filter_ne cd
  · rw [offlineChartRows, if_pos h]
    exact totalOf_filter_ne cd
  · rw [googleBarRows, offlineChartRows, if_pos h, if_pos h]

/-- C1 witness on the spec's example split {Infrastructure: 2,
Environmental: 3}. -/
theorem rendering_symmetry_witness :
    googlePieRows [("Infrastructure", 2), ("Environmental", 3)] =
      offlineChartRows [("Infrastructure", 2), ("Environmental", 3)] ∧
    totalOf (offlineChartRows [("Infrastructure", 2), ("Environmental", 3)]) =
      totalOf [("Infrastructure", 2), ("Environmental", 3)] ∧
    (googleBarRows [("Infrastructure", 2), ("Environmental", 3)]).filter
        (fun p => !(p.2 == 0)) =
      offlineChartRows [("Infrastructure", 2), ("Environmental", 3)] :=
  rendering_symmetry [("Infrastructure", 2), ("Environmental", 3)] (by decide)

/-- The indexed conversion-then-filter step yields one marker per
coordinate-carrying report, whatever the starting index. -/
theorem convertAll_filterMap_length (nowMs : Nat) (today : String) :
    ∀ (reports : List NewReport) (i : Nat),
      ((convertAll nowMs today i reports).filterMap id).length =
        reports.countP (fun r => r.coordinates.isSome) := by
  intro reports
  induction reports with
  | nil => intro i; rfl
  | cons hd tl ih =>
    intro i
    cases hc : hd.coordinates with
    | none =>
      simp [convertAll, convertReportToMarker, hc, List.countP_cons, ih (i + 1)]
    | some c =>
      simp [convertAll, convertReportToMarker, hc, List.countP_cons, ih (i + 1)]

/-- C2 (confirmed): the batch conversion is total — it produces exactly
one marker for every report with resolved coordinates and none for a
coordinate-less report, which is dropped without disturbing the rest of
the batch. -/
theorem convertBatch_marker_count (nowMs : Nat) (today : String)
    (reports : List NewReport) :
    (convertBatch nowMs today reports).length =
      reports.countP (fun r => r.coordinates.isSome) ∧
    ∀ (r : NewReport) (index : Nat),
      (convertReportToMarker nowMs today r index).isSome = r.coordinates.isSome := by
  constructor
  · exact convertAll_filterMap_length nowMs today reports 0
  · intro r index
    cases hc : r.coordinates with
    | none => simp [convertReportToMarker, hc]
    | some c => simp [convertReportToMarker, hc]

/-! ### Rendering mode selector retry behaviour -/

/-- C7 counterexample: with two consecutive load failures queued, the
civic-map selector ends in Fallback after a single load attempt, so it
does not perform the claimed one automatic retry (which would make two
attempts). -/
theorem selector_retry_counterexample :
    runMapSelector [false, false] = (MapViewState.fallback, 1) ∧
    (runMapSelector [false, false]).2 ≠ 2 :=
  ⟨rfl, by decide⟩

/-- C7 (corrected): after a load failure the selector performs no
automatic retry at all — the transient error times out straight into
Fallback after the one failed attempt, whatever outcomes further loads
would have had (so it never retries indefinitely, and a retry happens
only through the explicit user button); the category-chart loader
likewise goes to offline mode directly after its single failed script
load. -/
theorem selector_no_auto_retry (rest : List Bool) :
    runMapSelector (false :: rest) = (MapViewState.fallback, 1) ∧
    loadGoogleChartsStep true false = (true, 1) :=
  ⟨rfl, rfl⟩

/-! ### Aggregation idempotence -/

/-- Value of one synthetic trend entry at total 7 with draw 0.9. -/
theorem catChartTrendCount_seven_high : catChartTrendCount 7 (9/10) = 3 := by
  rw [catChartTrendCount]
  norm_num
  decide

/-- Value of one synthetic trend entry at total 7 with draw 0. -/
theorem catChartTrendCount_seven_zero : catChartTrendCount 7 0 = 1 := by
  rw [catChartTrendCount]
  norm_num

/-- C8 counterexample: evaluating the category-chart analytics twice on
the same category data consumes fresh random draws, and the two 7-day
trend series differ, so the outputs are not bit-identical. -/
theorem aggregation_idempotence_counterexample :
    (evalCatChart [("Infrastructure", 2), ("Environmental", 3), ("Safety Issue", 2)]
        [9/10, 0, 0, 0, 0, 0, 0, 0, 0, 0, 0, 0, 0, 0]).1 ≠
    (evalCatChart [("Infrastructure", 2), ("Environmental", 3), ("Safety Issue", 2)]
        ((evalCatChart [("Infrastructure", 2), ("Environmental", 3), ("Safety Issue", 2)]
            [9/10, 0, 0, 0, 0, 0, 0, 0, 0, 0, 0, 0, 0, 0]).2)).1 := by
  intro h
  have htrend := congrArg CatChartAnalytics.trendData h
  simp [evalCatChart, catChartAnalytics, totalOf, catChartTrendCount_seven_high,
    catChartTrendCount_seven_zero] at htrend

/-- C8 (corrected): the aggregation outputs are reproducible except for
the category-chart synthetic trend filler — the enhanced-analytics
engine consumes nothing from the random stream, so a second evaluation
returns the identical aggregate (all breakdowns and the day-bucketed
trend), and the category-chart total and top category do not depend on
the draws either; only its random trend series varies between calls. -/
theorem aggregation_rng_independent :
    (∀ (now : ℚ) (reports : List AReport) (f : AnalyticsFilters) (rng : List ℚ),
      (evalEnhanced now reports f rng).1 =
        (evalEnhanced now reports f (evalEnhanced now reports f rng).2).1) ∧
    (∀ (cd : List (String × Nat)) (rng : List ℚ),
      (evalCatChart cd rng).1.totalReports =
        (evalCatChart cd (evalCatChart cd rng).2).1.totalReports ∧
      (evalCatChart cd rng).1.mostCommonCategory =
        (evalCatChart cd (evalCatChart cd rng).2).1.mostCommonCategory) :=
  ⟨fun _ _ _ _ => rfl, fun _ _ => ⟨rfl, rfl⟩⟩

/-! ### Offline snapshot round-trip -/

/-- Marker `type` strings parse back to the same enum value. -/
theorem markerType_roundtrip (t : MarkerType) :
    markerTypeFromString (markerTypeToString t) = some t := by
  cases t <;> rfl

/-- Marker `priority` strings parse back to the same enum value. -/
theorem markerPriority_roundtrip (p : MarkerPriority) :
    markerPriorityFromString (markerPriorityToString p) = some p := by
  cases p <;> rfl

/-- Marker `status` strings parse back to the same enum value. -/
theorem markerStatus_roundtrip (s : MarkerStatus) :
    markerStatusFromString (markerStatusToString s) = some s := by
  cases s <;> rfl

/-- A serialised marker parses back to itself. -/
theorem decodeMarker_encodeMarker (m : IncidentMarker) :
    decodeMarker (encodeMarker m) = some m := by
  cases m with
  | mk id lat lng title description ty pr date st =>
    cases ty <;> cases pr <;> cases st <;> rfl

/-- A serialised marker list parses back to itself. -/
theorem decodeMarkerList_map (ms : List IncidentMarker) :
    decodeMarkerList (ms.map encodeMarker) = some ms := by
  induction ms with
  | nil => rfl
  | cons hd tl ih =>
    simp [decodeMarkerList, decodeMarker_encodeMarker, ih]

/-- A serialised snapshot parses back to itself. -/
theorem decodeOffline_encodeOffline (d : OfflineMapData) :
    decodeOffline (encodeOffline d) = some d := by
  cases d with
  | mk center zoom markers lastUpdated =>
    cases center with
    | mk la ln => simp [encodeOffline, decodeOffline, decodeMarkerList_map]

/-- C9 (confirmed): saving a snapshot into the cache slot and loading it
back reproduces the same center, the same zoom and the same number of
markers, whatever the slot held before. -/
theorem offline_snapshot_roundtrip (store : Option JVal) (d : OfflineMapData) :
    (loadOfflineData (saveOfflineData store d)).map (fun s => s.center) =
      some d.center ∧
    (loadOfflineData (saveOfflineData store d)).map (fun s => s.zoom) =
      some d.zoom ∧
    (loadOfflineData (saveOfflineData store d)).map (fun s => s.markers.length) =
      some d.markers.length := by
  simp [loadOfflineData, saveOfflineData, decodeOffline_encodeOffline]

/-! ### Submitted coordinates lie in the Kerala bounding box -/

/-- A candidate accepted by `findBestForQuery` passed the bounding-box
check. -/
theorem findBestForQuery_inBounds (data : List LocationResult) (g : GeoLocation)
    (h : findBestForQuery data = some g) : inKeralaBounds g.lat g.lon = true := by
  cases hk : data.filter isKeralaResult with
  | nil =>
    simp only [findBestForQuery, hk] at h
    cases h
  | cons best rest =>
    simp only [findBestForQuery, hk] at h
    by_cases hb : inKeralaBounds best.lat best.lon = true
    · rw [if_pos hb, Option.some.injEq] at h
      subst h
      exact hb
    · rw [if_neg hb] at h
      cases h

/-- Any location produced by the query loop passed the bounding-box
check. -/
theorem findLoop_inBounds (responses : String → Option (List LocationResult)) :
    ∀ (qs : List String) (g : GeoLocation),
      findLoop responses qs = some g → inKeralaBounds g.lat g.lon = true := by
  intro qs
  induction qs with
  | nil => intro g h; cases h
  | cons q rest ih =>
    intro g h
    cases hr : responses q with
    | none =>
      simp only [findLoop, hr] at h
      exact ih g h
    | some data =>
      simp only [findLoop, hr] at h
      cases hb : findBestForQuery data with
      | none =>
        simp only [hb] at h
        exact ih g h
      | some g' =>
        simp only [hb, Option.some.injEq] at h
        subst h
        exact findBestForQuery_inBounds data g' hb

/-- Any location resolved by `findBestLocationInKerala` lies in the
Kerala bounding box. -/
theorem findBestLocationInKerala_inBounds
    (responses : String → Option (List LocationResult)) (query : String)
    (g : GeoLocation) (h : findBestLocationInKerala responses query = some g) :
    inKeralaBounds g.lat g.lon = true := by
  rw [findBestLocationInKerala] at h
  split at h
  · cases h
  · exact findLoop_inBounds responses (searchQueries query) g h

/-- C10 (confirmed): whenever `handleSubmit` hands a payload to
`onSubmit`, that payload carries coordinates and they lie within the
Kerala bounding box (latitude 8.2–12.5, longitude 74.8–77.5); a
submission whose location cannot be geocoded into the box never reaches
`onSubmit`. -/
theorem submit_coordinates_in_kerala
    (responses : String → Option (List LocationResult))
    (geocodedQuery : Option String) (location description category : String)
    (fd : FormData)
    (h : handleSubmit responses geocodedQuery location description category = some fd) :
    inKeralaBounds fd.coordinates.lat fd.coordinates.lon = true := by
  rw [handleSubmit] at h
  split at h
  · cases h
  · cases hg : geocodedQuery.bind (findBestLocationInKerala responses) with
    | some g =>
      simp only [hg, Option.some.injEq] at h
      obtain ⟨q, hq, hfind⟩ := Option.bind_eq_some.mp hg
      have hbounds := findBestLocationInKerala_inBounds responses q g hfind
      subst h
      exact hbounds
    | none =>
      simp only [hg] at h
      cases hf : findBestLocationInKerala responses (trimString location) with
      | some g =>
        simp only [hf, Option.some.injEq] at h
        have hbounds :=
          findBestLocationInKerala_inBounds responses (trimString location) g hf
        subst h
        exact hbounds
      | none =>
        simp only [hf] at h
        cases h

/-- C10 witness: a concrete geocoder response for Kochi yields a
submission pinned at (10, 76), inside the box. -/
theorem submit_coordinates_in_kerala_witness :
    inKeralaBounds
      (FormData.mk "Kochi, Ernakulam district, Kerala, India" ⟨10, 76⟩
        "Large pothole on the road" "infrastructure").coordinates.lat
      (FormData.mk "Kochi, Ernakulam district, Kerala, India" ⟨10, 76⟩
        "Large pothole on the road" "infrastructure").coordinates.lon = true :=
  submit_coordinates_in_kerala
    (fun q => if q = "Kochi, Kerala, India" then
        some [⟨"Kochi, Ernakulam district, Kerala, India", 10, 76⟩] else none)
    none "Kochi" "Large pothole on the road " "infrastructure" _ (by decide)

end SurakshaMap
